import Mathlib

/-!
# Mert-Uncle-Whatsapp: connection lifecycle and guarded dispatch loop

A shallow embedding of `server.js`.  The six global variables become the
fields of `State`; every handler becomes a function from the state it finds
(and the outcomes of the external calls it awaits) to the state it leaves and
the list of effects it performs, in program order.  Logging is left out.

Numbers that arrive in a command are integers (`Int`); a missing field is
`none`.  What the session library, the QR renderer and `Math.random` answer is
an argument of the function that asks.

Asynchrony.  A handler that awaits an external call before its first write to
a global (`connection.update` with a challenge, `logout`, the demo timer, the
`try` block of `connectToWhatsApp`) writes nothing before the call settles and
runs without interruption afterwards, so it is one transition, taken when the
call settles.  `sendMessages` suspends inside its loop while `isSending` is
set: `sendMessagesBegin` is the part before the loop, `sendMessagesEnd` the
`finally` block, and in the transition system `System` other handlers run
between the two.
-/

namespace MertUncle

/-! ## Data model -/

/-- Process configuration and the one library constant the handlers read. -/
structure Env where
  /-- Value of `process.env.DEMO_MODE === 'true'` (line 12). -/
  DEMO_MODE : Bool
  /-- Display name used in message bodies (line 11). -/
  BOT_NAME : String
  /-- Status code `DisconnectReason.loggedOut` of the session library (line 4). -/
  loggedOut : Int
  deriving DecidableEq, Repr

/-- The global variables of lines 34-39.  Field `sock` is `true` when the
variable holds a session handle and `false` when it is `null`. -/
structure State where
  sock : Bool
  qrCodeData : Option String
  isConnected : Bool
  connectionState : String
  isSending : Bool
  isReconnecting : Bool
  deriving DecidableEq, Repr

/-- Values of the globals at start-up (lines 34-39). -/
def State.initial : State :=
  { sock := false, qrCodeData := none, isConnected := false,
    connectionState := "disconnected", isSending := false, isReconnecting := false }

/-- Payloads of the outbound events of the observer protocol. -/
inductive Event where
  | qr (data : String)
  | connectionState (state : String) (connected : Bool) (demoMode : Option Bool)
  | connected (message : String)
  | loggedOut (message : String)
  | error (message : String)
  | messageProgress (current : Nat) (total : Int) (success errors : Nat)
  | messageError (messageNumber : Nat) (error : String)
  | sendComplete (success errors : Nat)
  | sendError (message : String)
  deriving DecidableEq, Repr

/-- What a handler does to the outside world, in program order. -/
inductive Effect where
  /-- Call `io.emit`: the event goes to every attached observer. -/
  | broadcast (e : Event)
  /-- Call `socket.emit`: the event goes to the invoking observer only. -/
  | reply (e : Event)
  /-- Call `sock.sendMessage(jid, { text })`. -/
  | sendMessage (jid text : String)
  /-- Suspension `await new Promise(resolve => setTimeout(resolve, ms))`. -/
  | sleep (ms : Int)
  /-- Timer `setTimeout(() => connectToWhatsApp(), ms)` (line 114). -/
  | scheduleConnect (ms : Nat)
  /-- Timer of the demo challenge (lines 54-67). -/
  | scheduleDemoQr (ms : Nat)
  /-- The handler of `send-messages` invokes `sendMessages` (line 301). -/
  | callSendMessages (targetNumber : String) (messageCount delayMs : Int)
  deriving DecidableEq, Repr

/-- The object returned by `sendMessages` (lines 199 and 252). -/
structure SendResult where
  success : Nat
  errors : Nat
  deriving DecidableEq, Repr

/-- Outcomes of the external calls awaited inside the send loops. -/
structure Oracle where
  /-- For message `i`: `none` when `sock.sendMessage` resolves, `some m` when
  it throws an error whose `message` is `m`. -/
  sendFails : Nat → Option String
  /-- For iteration `i` of the demo loop: whether `Math.random() > 0.9`. -/
  demoFails : Nat → Bool

/-! ## Recipient normalisation (lines 144-158) -/

/-- The ASCII digits of a string, in order: what is left of `number` after
`replace(/[^\d+]/g, '')` and `replace(/\+/g, '')`. -/
def digitsOf (s : String) : List Char :=
  s.toList.filter Char.isDigit

/-- Embedding of `validatePhoneNumber` (lines 144-158); `none` is `null`. -/
def validatePhoneNumber (number : String) : Option String :=
  let cleaned := number.toList.filter (fun c => c.isDigit || c == '+')
  let numericPart := cleaned.filter (fun c => c != '+')
  if numericPart.length < 10 then none
  else some (String.mk numericPart ++ "@s.whatsapp.net")

/-! ## The dispatch loops (lines 161-256) -/

/-- Body of message `i`, the template string of line 225. -/
def messageText (env : Env) (i : Nat) (messageCount : Int) : String :=
  "Message " ++ toString i ++ " of " ++ toString messageCount ++ " from " ++ env.BOT_NAME

/-- The `for` loop of lines 223-250, entered at index `i` with the two
counters.  The first argument bounds the number of iterations; `sendMessages`
passes `messageCount.toNat`, which the loop started at 1 never exhausts
(`sendLoop_fuel`).  Returns the effects performed and the final counters. -/
def sendLoop (env : Env) (formattedNumber : String) (messageCount delayMs : Int) (o : Oracle) :
    Nat → Nat → Nat → Nat → List Effect × Nat × Nat
  | 0, _, successCount, errorCount => ([], successCount, errorCount)
  | fuel + 1, i, successCount, errorCount =>
    if (i : Int) ≤ messageCount then
      match o.sendFails i with
      | none =>
        let rest := sendLoop env formattedNumber messageCount delayMs o fuel (i + 1)
          (successCount + 1) errorCount
        ([Effect.sendMessage formattedNumber (messageText env i messageCount),
          Effect.broadcast (Event.messageProgress i messageCount (successCount + 1) errorCount)]
          ++ (if (i : Int) < messageCount then [Effect.sleep delayMs] else [])
          ++ rest.1, rest.2)
      | some err =>
        let rest := sendLoop env formattedNumber messageCount delayMs o fuel (i + 1)
          successCount (errorCount + 1)
        ([Effect.sendMessage formattedNumber (messageText env i messageCount),
          Effect.broadcast (Event.messageError i err)]
          ++ rest.1, rest.2)
    else ([], successCount, errorCount)

/-- The `for` loop of the demo branch, lines 170-197. -/
def demoLoop (messageCount delayMs : Int) (o : Oracle) :
    Nat → Nat → Nat → Nat → List Effect × Nat × Nat
  | 0, _, successCount, errorCount => ([], successCount, errorCount)
  | fuel + 1, i, successCount, errorCount =>
    if (i : Int) ≤ messageCount then
      if o.demoFails i then
        let rest := demoLoop messageCount delayMs o fuel (i + 1) successCount (errorCount + 1)
        ([Effect.sleep (min delayMs 500),
          Effect.broadcast (Event.messageError i "Demo: Simulated error"),
          Effect.broadcast (Event.messageProgress i messageCount successCount (errorCount + 1))]
          ++ rest.1, rest.2)
      else
        let rest := demoLoop messageCount delayMs o fuel (i + 1) (successCount + 1) errorCount
        ([Effect.sleep (min delayMs 500),
          Effect.broadcast (Event.messageProgress i messageCount (successCount + 1) errorCount)]
          ++ rest.1, rest.2)
    else ([], successCount, errorCount)

/-- The synchronous start of `sendMessages`: line 165 in demo mode, lines
205-218 otherwise.  A rejection is the message of the thrown error; an
acceptance is the state with `isSending` set and, outside demo mode, the
normalised recipient. -/
def sendMessagesBegin (env : Env) (st : State) (targetNumber : String) :
    Except String (State × Option String) :=
  if env.DEMO_MODE then .ok ({ st with isSending := true }, none)
  else if !st.sock || !st.isConnected then .error "WhatsApp is not connected"
  else if st.isSending then .error "Already sending messages"
  else
    match validatePhoneNumber targetNumber with
    | none => .error "Invalid phone number format. Use format: +1234567890"
    | some formattedNumber => .ok ({ st with isSending := true }, some formattedNumber)

/-- The `finally` blocks of lines 200-202 and 253-255. -/
def sendMessagesEnd (st : State) : State :=
  { st with isSending := false }

/-- Embedding of `sendMessages` (lines 161-256), run from call to return with
no other handler in between: the state left, the effects performed, and either
the returned object or the message of the thrown error. -/
def sendMessages (env : Env) (st : State) (targetNumber : String) (messageCount delayMs : Int)
    (o : Oracle) : State × List Effect × Except String SendResult :=
  match sendMessagesBegin env st targetNumber with
  | .error m => (st, [], .error m)
  | .ok (st1, none) =>
    let r := demoLoop messageCount delayMs o messageCount.toNat 1 0 0
    (sendMessagesEnd st1, r.1, .ok { success := r.2.1, errors := r.2.2 })
  | .ok (st1, some formattedNumber) =>
    let r := sendLoop env formattedNumber messageCount delayMs o messageCount.toNat 1 0 0
    (sendMessagesEnd st1, r.1, .ok { success := r.2.1, errors := r.2.2 })

/-! ## Observer commands (lines 259-328) -/

/-- Truthiness of a string-or-null value, as tested by `if (x)`. -/
def truthy : Option String → Bool
  | some s => s != ""
  | none => false

/-- The `data` object of a `send-messages` command; `none` is a missing field. -/
structure SendData where
  targetNumber : Option String
  messageCount : Option Int
  delay : Option Int
  deriving DecidableEq, Repr

/-- Validation of lines 283-299: the message of the `send-error` emitted, or
the three arguments handed to `sendMessages`. -/
def checkSendRequest (data : SendData) : Except String (String × Int × Int) :=
  match data.targetNumber, data.messageCount, data.delay with
  | some targetNumber, some messageCount, some delay =>
    if targetNumber = "" ∨ messageCount = 0 then .error "Missing required fields"
    else if messageCount < 1 ∨ messageCount > 10000 then
      .error "Message count must be between 1 and 10,000"
    else if delay < 1000 ∨ delay > 60000 then
      .error "Delay must be between 1000ms (1s) and 60000ms (60s)"
    else .ok (targetNumber, messageCount, delay)
  | _, _, _ => .error "Missing required fields"

/-- Handler of `send-messages` (lines 281-307). -/
def onSendMessages (env : Env) (st : State) (data : SendData) (o : Oracle) :
    State × List Effect :=
  match checkSendRequest data with
  | .error m => (st, [Effect.reply (Event.sendError m)])
  | .ok (targetNumber, messageCount, delay) =>
    match sendMessages env st targetNumber messageCount delay o with
    | (st1, tr, .ok result) =>
      (st1, Effect.callSendMessages targetNumber messageCount delay :: tr
        ++ [Effect.reply (Event.sendComplete result.success result.errors)])
    | (st1, tr, .error m) =>
      (st1, Effect.callSendMessages targetNumber messageCount delay :: tr
        ++ [Effect.reply (Event.sendError m)])

/-- What a newly attached observer is sent (lines 263-266). -/
def onConnection (env : Env) (st : State) : List Effect :=
  Effect.reply (Event.connectionState st.connectionState st.isConnected (some env.DEMO_MODE))
    :: (match st.qrCodeData with
        | some d => if truthy (some d) then [Effect.reply (Event.qr d)] else []
        | none => [])

/-- Handler of `demo-connect` (lines 269-278). -/
def onDemoConnect (env : Env) (st : State) : State × List Effect :=
  if env.DEMO_MODE then
    ({ st with isConnected := true, connectionState := "connected", qrCodeData := none },
      [Effect.broadcast (Event.connected "DEMO: WhatsApp connected successfully"),
       Effect.broadcast (Event.connectionState "connected" true (some env.DEMO_MODE))])
  else (st, [])

/-- Handler of `logout` (lines 310-323); `ok` is whether `sock.logout()`
resolved rather than threw. -/
def onLogout (st : State) (ok : Bool) : State × List Effect :=
  if st.sock then
    if ok then
      ({ st with isConnected := false, connectionState := "disconnected", qrCodeData := none },
        [Effect.reply (Event.loggedOut "Logged out successfully")])
    else (st, [Effect.reply (Event.error "Failed to logout")])
  else (st, [])

/-! ## Connection lifecycle (lines 45-141) -/

/-- The fields a `connection.update` handler destructures (line 83);
`statusCode` is `lastDisconnect?.error?.output?.statusCode`, with `none` for
`undefined`. -/
structure Update where
  connection : Option String
  statusCode : Option Int
  qr : Option String
  deriving DecidableEq, Repr

/-- Lines 85-100: the challenge part of the update handler.  `rendered` is the
data URL `QRCode.toDataURL` resolves to, `none` when it throws. -/
def onQr (st : State) (u : Update) (rendered : Option String) : State × List Effect :=
  if truthy u.qr then
    match rendered with
    | some url =>
      ({ st with qrCodeData := some url, connectionState := "qr", isConnected := false,
                 isReconnecting := false },
        [Effect.broadcast (Event.qr url),
         Effect.broadcast (Event.connectionState "qr" false none)])
    | none =>
      ({ st with isReconnecting := false },
        [Effect.broadcast (Event.error "Failed to generate QR code")])
  else (st, [])

/-- Lines 102-119: the `close` part of the update handler. -/
def onClose (env : Env) (st : State) (u : Update) : State × List Effect :=
  if u.connection = some "close" then
    let shouldReconnect := u.statusCode ≠ some env.loggedOut
    let st1 := { st with isReconnecting := false, isConnected := false,
                         connectionState := "disconnected" }
    if shouldReconnect then
      (st1, [Effect.broadcast (Event.connectionState "disconnected" false none),
             Effect.scheduleConnect 5000])
    else
      ({ st1 with qrCodeData := none },
        [Effect.broadcast (Event.connectionState "disconnected" false none),
         Effect.broadcast (Event.loggedOut "You have been logged out")])
  else (st, [])

/-- Lines 121-129: the `open` part of the update handler. -/
def onOpen (st : State) (u : Update) : State × List Effect :=
  if u.connection = some "open" then
    ({ st with isConnected := true, connectionState := "connected", qrCodeData := none,
               isReconnecting := false },
      [Effect.broadcast (Event.connected "WhatsApp connected successfully"),
       Effect.broadcast (Event.connectionState "connected" true none)])
  else (st, [])

/-- Handler of `connection.update` (lines 82-130): the three parts in order. -/
def onConnectionUpdate (env : Env) (st : State) (u : Update) (rendered : Option String) :
    State × List Effect :=
  let a := onQr st u rendered
  let b := onClose env a.1 u
  let c := onOpen b.1 u
  (c.1, a.2 ++ b.2 ++ c.2)

/-- Callback of the demo challenge timer (lines 54-67); `rendered` as in `onQr`. -/
def onDemoQrTimer (st : State) (rendered : Option String) : State × List Effect :=
  match rendered with
  | some url =>
    ({ st with qrCodeData := some url, connectionState := "qr", isConnected := false },
      [Effect.broadcast (Event.qr url),
       Effect.broadcast (Event.connectionState "qr" false none)])
  | none => (st, [])

/-- Embedding of `connectToWhatsApp` (lines 45-141); `opens` is whether the
body of the `try` block (lines 74-133) completed rather than threw. -/
def connectToWhatsApp (env : Env) (st : State) (opens : Bool) : State × List Effect :=
  if st.isReconnecting then (st, [])
  else if env.DEMO_MODE then (st, [Effect.scheduleDemoQr 2000])
  else if opens then ({ st with isReconnecting := true, sock := true }, [])
  else
    ({ st with connectionState := "error", isReconnecting := false },
      [Effect.broadcast (Event.error "Failed to connect to WhatsApp")])

/-- Status query of lines 335-341: the pair `(connected, state)`. -/
def health (st : State) : Bool × String :=
  (st.isConnected, st.connectionState)

/-! ## The process as a transition system -/

/-- The globals together with the number of `sendMessages` invocations that
have passed their synchronous start and not yet reached their `finally`. -/
structure System where
  st : State
  running : Nat
  deriving DecidableEq, Repr

/-- State of the process when the server starts listening. -/
def System.initial : System :=
  { st := State.initial, running := 0 }

/-- What can happen next: a handler runs, or a send loop in flight returns. -/
inductive Input where
  | connect (opens : Bool)
  | update (u : Update) (rendered : Option String)
  | demoQrTimer (rendered : Option String)
  | attach
  | demoConnect
  | logout (ok : Bool)
  | sendMessages (data : SendData)
  | loopReturns
  deriving DecidableEq, Repr

/-- One transition.  Every handler may run in any state, which covers every
schedule of the real process; only `loopReturns` needs a loop in flight. -/
def step (env : Env) (s : System) : Input → System
  | .connect opens => { s with st := (connectToWhatsApp env s.st opens).1 }
  | .update u rendered => { s with st := (onConnectionUpdate env s.st u rendered).1 }
  | .demoQrTimer rendered => { s with st := (onDemoQrTimer s.st rendered).1 }
  | .attach => s
  | .demoConnect => { s with st := (onDemoConnect env s.st).1 }
  | .logout ok => { s with st := (onLogout s.st ok).1 }
  | .sendMessages data =>
    match checkSendRequest data with
    | .error _ => s
    | .ok (targetNumber, _, _) =>
      match sendMessagesBegin env s.st targetNumber with
      | .error _ => s
      | .ok (st1, _) => { st := st1, running := s.running + 1 }
  | .loopReturns =>
    if s.running = 0 then s
    else { st := sendMessagesEnd s.st, running := s.running - 1 }

/-- The state reached from start-up by a sequence of inputs. -/
def run (env : Env) (inputs : List Input) : System :=
  inputs.foldl (step env) System.initial

/-! ## Observations on a list of effects -/

/-- The `current` fields of the `message-progress` events, in order. -/
def progressCurrents (tr : List Effect) : List Nat :=
  tr.filterMap fun
    | Effect.broadcast (Event.messageProgress current _ _ _) => some current
    | _ => none

/-- The `messageNumber` fields of the `message-error` events, in order. -/
def errorNumbers (tr : List Effect) : List Nat :=
  tr.filterMap fun
    | Effect.broadcast (Event.messageError messageNumber _) => some messageNumber
    | _ => none

/-- The send attempts, in order. -/
def sendsOf (tr : List Effect) : List (String × String) :=
  tr.filterMap fun
    | Effect.sendMessage jid text => some (jid, text)
    | _ => none

/-- The suspensions, in order. -/
def sleepsOf (tr : List Effect) : List Int :=
  tr.filterMap fun
    | Effect.sleep ms => some ms
    | _ => none

/-- The delays of the connect retries scheduled, in order. -/
def retriesOf (tr : List Effect) : List Nat :=
  tr.filterMap fun
    | Effect.scheduleConnect ms => some ms
    | _ => none

/-- The events emitted, in order. -/
def eventsOf (tr : List Effect) : List Effect :=
  tr.filter fun
    | Effect.broadcast _ => true
    | Effect.reply _ => true
    | _ => false

/-- Whether the handler invoked `sendMessages`. -/
def callsSendMessages (tr : List Effect) : Bool :=
  tr.any fun
    | Effect.callSendMessages _ _ _ => true
    | _ => false

/-- The indices `i`, `i + 1`, ... of `n` successive iterations. -/
def indices (i n : Nat) : List Nat :=
  List.range' i n

/-- Whether the send of message `i` resolves. -/
def sent (o : Oracle) (i : Nat) : Bool :=
  (o.sendFails i).isNone

/-! ## Concrete inputs -/

/-- Configuration of a production process. -/
def liveEnv : Env :=
  { DEMO_MODE := false, BOT_NAME := "Mert Uncle Bot", loggedOut := 401 }

/-- The globals of a connected, idle process. -/
def connectedIdle : State :=
  { sock := true, qrCodeData := none, isConnected := true, connectionState := "connected",
    isSending := false, isReconnecting := false }

/-- The send of message 1 throws, every other send resolves. -/
def firstSendFails : Oracle :=
  { sendFails := fun i => if i = 1 then some "Connection Closed" else none,
    demoFails := fun _ => false }


/-- Every send resolves; the demo loop injects no failure. -/
def allSendsResolve : Oracle :=
  { sendFails := fun _ => none, demoFails := fun _ => false }

/-- Configuration of a demo process. -/
def demoEnv : Env :=
  { DEMO_MODE := true, BOT_NAME := "Mert Uncle Bot", loggedOut := 401 }

/-- The globals of a connected process with a send job in flight. -/
def connectedSending : State :=
  { connectedIdle with isSending := true }

/-- A well-formed command for 2 messages, one second apart. -/
def twoMessages : SendData :=
  { targetNumber := some "+1 (234) 567-8901", messageCount := some 2, delay := some 1000 }

/-- A `connection.update` that only reports the session open. -/
def opened : Update :=
  { connection := some "open", statusCode := none, qr := none }

/-- A `connection.update` that only reports the session closed with status
code 408 (connection timed out), which is not `loggedOut`. -/
def closedTimedOut : Update :=
  { connection := some "close", statusCode := some 408, qr := none }

/-- A `connection.update` that only carries a challenge. -/
def challenge : Update :=
  { connection := none, statusCode := none, qr := some "2@kX9" }
/-! ## Recipient normalisation: proofs -/

theorem isDigit_ne_plus (c : Char) : ((c != '+') && (c.isDigit || c == '+')) = c.isDigit := by
  by_cases h : c = '+'
  · subst h; decide
  · have h1 : (c != '+') = true := by simpa using h
    have h2 : (c == '+') = false := by simpa using h
    simp [h1, h2]

theorem numericPart_eq_digitsOf (s : String) :
    (s.toList.filter (fun c => c.isDigit || c == '+')).filter (fun c => c != '+') = digitsOf s := by
  unfold digitsOf
  rw [List.filter_filter]
  congr 1
  funext c
  exact isDigit_ne_plus c

/-- The result of `validatePhoneNumber` in terms of the digits of its argument. -/
theorem validatePhoneNumber_eq (s : String) :
    validatePhoneNumber s =
      (if (digitsOf s).length < 10 then none
       else some (String.mk (digitsOf s) ++ "@s.whatsapp.net")) := by
  unfold validatePhoneNumber
  simp only [numericPart_eq_digitsOf]

/-- C4: `validatePhoneNumber s` is `null` exactly when `s` holds fewer than 10
ASCII digits, and otherwise is the digits of `s` in order, everything else
(each `+` included) removed, followed by `@s.whatsapp.net`; the two examples
of the specification come out as accepted and rejected. -/
theorem validatePhoneNumber_spec (s : String) :
    (validatePhoneNumber s = none ↔ (digitsOf s).length < 10) ∧
    validatePhoneNumber s =
      (if (digitsOf s).length < 10 then none
       else some (String.mk (digitsOf s) ++ "@s.whatsapp.net")) ∧
    validatePhoneNumber "+1 (234) 567-8901" = some "12345678901@s.whatsapp.net" ∧
    validatePhoneNumber "12345" = none := by
  refine ⟨?_, validatePhoneNumber_eq s, by decide, by decide⟩
  rw [validatePhoneNumber_eq]
  by_cases h : (digitsOf s).length < 10 <;> simp [h]

/-! ## The real dispatch loop: proofs -/

section Loop

variable (env : Env) (jid : String) (messageCount delayMs : Int) (o : Oracle)

/-- Once the bound covers the iterations left, a larger bound changes nothing:
the loop ends by its own test, never by the bound. -/
theorem sendLoop_fuel (fuel : Nat) : ∀ (i s e : Nat), messageCount + 1 ≤ (i : Int) + fuel →
    ∀ extra, sendLoop env jid messageCount delayMs o (fuel + extra) i s e
      = sendLoop env jid messageCount delayMs o fuel i s e := by
  induction fuel with
  | zero =>
    intro i s e h extra
    have hi : ¬ ((i : Int) ≤ messageCount) := by omega
    cases extra with
    | zero => rfl
    | succ n => simp [sendLoop, hi]
  | succ fuel ih =>
    intro i s e h extra
    have hstep : messageCount + 1 ≤ ((i + 1 : Nat) : Int) + fuel := by push_cast; omega
    rw [show fuel + 1 + extra = (fuel + extra) + 1 by omega]
    simp only [sendLoop]
    by_cases hi : (i : Int) ≤ messageCount
    · simp only [hi, if_true]
      cases hs : o.sendFails i with
      | none => simp only [ih (i + 1) (s + 1) e hstep extra]
      | some m => simp only [ih (i + 1) s (e + 1) hstep extra]
    · simp only [hi, if_false]

/-- The bound `messageCount.toNat` that `sendMessages` passes is never what ends
the loop: any larger bound gives the same run. -/
theorem sendLoop_bound_adequate (extra : Nat) :
    sendLoop env jid messageCount delayMs o (messageCount.toNat + extra) 1 0 0
      = sendLoop env jid messageCount delayMs o messageCount.toNat 1 0 0 := by
  apply sendLoop_fuel
  have := Int.self_le_toNat messageCount
  push_cast
  omega

/-- The demo loop, too, ends by its own test once the bound covers the
iterations left. -/
theorem demoLoop_fuel (fuel : Nat) : ∀ (i s e : Nat), messageCount + 1 ≤ (i : Int) + fuel →
    ∀ extra, demoLoop messageCount delayMs o (fuel + extra) i s e
      = demoLoop messageCount delayMs o fuel i s e := by
  induction fuel with
  | zero =>
    intro i s e h extra
    have hi : ¬ ((i : Int) ≤ messageCount) := by omega
    cases extra with
    | zero => rfl
    | succ n => simp [demoLoop, hi]
  | succ fuel ih =>
    intro i s e h extra
    have hstep : messageCount + 1 ≤ ((i + 1 : Nat) : Int) + fuel := by push_cast; omega
    rw [show fuel + 1 + extra = (fuel + extra) + 1 by omega]
    simp only [demoLoop]
    by_cases hi : (i : Int) ≤ messageCount
    · simp only [hi, if_true]
      cases hs : o.demoFails i with
      | false => simp [ih (i + 1) (s + 1) e hstep extra]
      | true => simp [ih (i + 1) s (e + 1) hstep extra]
    · simp only [hi, if_false]

/-- What the loop does over the `fuel` iterations `i`, `i + 1`, ... that end
at `messageCount`: one send per index, a progress event for each send that
resolves, an error event for each that throws, a suspension after each send
that resolves except at the last index, and the two counts. -/
theorem sendLoop_trace (fuel : Nat) : ∀ (i s e : Nat), (i : Int) + fuel = messageCount + 1 →
    sendsOf (sendLoop env jid messageCount delayMs o fuel i s e).1
      = (indices i fuel).map (fun j => (jid, messageText env j messageCount)) ∧
    progressCurrents (sendLoop env jid messageCount delayMs o fuel i s e).1
      = (indices i fuel).filter (sent o) ∧
    errorNumbers (sendLoop env jid messageCount delayMs o fuel i s e).1
      = (indices i fuel).filter (fun j => !sent o j) ∧
    sleepsOf (sendLoop env jid messageCount delayMs o fuel i s e).1
      = ((indices i fuel).filter (fun j => sent o j && decide ((j : Int) < messageCount))).map
          (fun _ => delayMs) ∧
    (sendLoop env jid messageCount delayMs o fuel i s e).2.1
      = s + ((indices i fuel).filter (sent o)).length ∧
    (sendLoop env jid messageCount delayMs o fuel i s e).2.2
      = e + ((indices i fuel).filter (fun j => !sent o j)).length := by
  induction fuel with
  | zero =>
    intro i s e _
    simp [sendLoop, indices, sendsOf, progressCurrents, errorNumbers, sleepsOf]
  | succ fuel ih =>
    intro i s e h
    have hi : (i : Int) ≤ messageCount := by omega
    have hstep : ((i + 1 : Nat) : Int) + fuel = messageCount + 1 := by push_cast; omega
    simp only [sendLoop, hi, if_true, indices, List.range'_succ]
    cases hs : o.sendFails i with
    | none =>
      obtain ⟨h1, h2, h3, h4, h5, h6⟩ := ih (i + 1) (s + 1) e hstep
      have hsent : sent o i = true := by simp [sent, hs]
      simp only [indices] at h1 h2 h3 h4 h5 h6
      by_cases hlt : (i : Int) < messageCount
      · simp [sendsOf, progressCurrents, errorNumbers, sleepsOf, List.filterMap_append,
          List.filterMap_cons, hsent, hlt] at h1 h2 h3 h4 h5 h6 ⊢
        refine ⟨h1, h2, h3, h4, ?_, h6⟩
        rw [h5]; omega
      · simp [sendsOf, progressCurrents, errorNumbers, sleepsOf, List.filterMap_append,
          List.filterMap_cons, hsent, hlt] at h1 h2 h3 h4 h5 h6 ⊢
        refine ⟨h1, h2, h3, h4, ?_, h6⟩
        rw [h5]; omega
    | some m =>
      obtain ⟨h1, h2, h3, h4, h5, h6⟩ := ih (i + 1) s (e + 1) hstep
      have hsent : sent o i = false := by simp [sent, hs]
      simp only [indices] at h1 h2 h3 h4 h5 h6
      simp [sendsOf, progressCurrents, errorNumbers, sleepsOf, List.filterMap_append,
        List.filterMap_cons, hsent] at h1 h2 h3 h4 h5 h6 ⊢
      refine ⟨h1, h2, h3, h4, h5, ?_⟩
      rw [h6]; omega

end Loop

/-! ## `sendMessages` outside demo mode: proofs -/

/-- An accepted call outside demo mode runs the loop on the normalised
recipient and leaves `isSending` cleared. -/
theorem sendMessages_accepted (env : Env) (st : State) (t : String) (mc d : Int) (o : Oracle)
    (hdemo : env.DEMO_MODE = false) (hs : st.sock = true) (hc : st.isConnected = true)
    (hn : st.isSending = false) (hd : 10 ≤ (digitsOf t).length) :
    sendMessages env st t mc d o
      = (st,
         (sendLoop env (String.mk (digitsOf t) ++ "@s.whatsapp.net") mc d o mc.toNat 1 0 0).1,
         .ok { success :=
                 (sendLoop env (String.mk (digitsOf t) ++ "@s.whatsapp.net") mc d o
                   mc.toNat 1 0 0).2.1,
               errors :=
                 (sendLoop env (String.mk (digitsOf t) ++ "@s.whatsapp.net") mc d o
                   mc.toNat 1 0 0).2.2 }) := by
  have hv : validatePhoneNumber t = some (String.mk (digitsOf t) ++ "@s.whatsapp.net") := by
    rw [validatePhoneNumber_eq]
    simp [Nat.not_lt.mpr hd]
  obtain ⟨sock, qrData, conn, cs, sending, rec⟩ := st
  simp only at hs hc hn
  subst hs hc hn
  simp [sendMessages, sendMessagesBegin, sendMessagesEnd, hdemo, hv]

/-- C3: an accepted job of `messageCount >= 1` messages attempts one send for
each index `1..messageCount` in ascending order whatever the sends do, and
returns the number of sends that resolved as `success` and the number that
threw as `errors`, which add up to `messageCount`. -/
theorem sendMessages_attempts_every_index (env : Env) (st : State) (t : String) (mc d : Int)
    (o : Oracle) (hdemo : env.DEMO_MODE = false) (hs : st.sock = true)
    (hc : st.isConnected = true) (hn : st.isSending = false)
    (hd : 10 ≤ (digitsOf t).length) (h1 : 1 ≤ mc) (h2 : mc ≤ 10000) :
    sendsOf (sendMessages env st t mc d o).2.1
      = (List.range' 1 mc.toNat).map
          (fun i => (String.mk (digitsOf t) ++ "@s.whatsapp.net", messageText env i mc)) ∧
    (∃ r : SendResult, (sendMessages env st t mc d o).2.2 = .ok r ∧
      r.success = ((List.range' 1 mc.toNat).filter (fun i => (o.sendFails i).isNone)).length ∧
      r.errors = ((List.range' 1 mc.toNat).filter (fun i => (o.sendFails i).isSome)).length ∧
      (r.success : Int) + r.errors = mc) := by
  have hfuel : ((1 : Nat) : Int) + mc.toNat = mc + 1 := by
    have := Int.toNat_of_nonneg (show 0 ≤ mc by omega)
    omega
  have _ : mc ≤ 10000 := h2
  obtain ⟨t1, _, _, _, t5, t6⟩ :=
    sendLoop_trace env (String.mk (digitsOf t) ++ "@s.whatsapp.net") mc d o mc.toNat 1 0 0 hfuel
  rw [sendMessages_accepted env st t mc d o hdemo hs hc hn hd]
  refine ⟨t1, _, rfl, ?_, ?_, ?_⟩
  · simpa [indices, sent] using t5
  · have hf : (fun j => !sent o j) = (fun i => (o.sendFails i).isSome) := by
      funext j; cases h : o.sendFails j <;> simp [sent, h]
    simpa [indices, hf] using t6
  · have hlen := List.length_eq_length_filter_add (l := indices 1 mc.toNat) (sent o)
    have hn' := Int.toNat_of_nonneg (show 0 ≤ mc by omega)
    simp only [indices, List.length_range'] at hlen t5 t6
    simp only [t5, t6, indices]
    omega

/-- Outside demo mode an accepted job emits a progress event for exactly the
indices whose send resolved, and suspends after exactly those of them that are
not the last index. -/
theorem sendMessages_progress_and_sleeps (env : Env) (st : State) (t : String) (mc d : Int)
    (o : Oracle) (hdemo : env.DEMO_MODE = false) (hs : st.sock = true)
    (hc : st.isConnected = true) (hn : st.isSending = false)
    (hd : 10 ≤ (digitsOf t).length) (h1 : 1 ≤ mc) :
    progressCurrents (sendMessages env st t mc d o).2.1
      = (List.range' 1 mc.toNat).filter (fun i => (o.sendFails i).isNone) ∧
    sleepsOf (sendMessages env st t mc d o).2.1
      = ((List.range' 1 mc.toNat).filter
          (fun i => (o.sendFails i).isNone && decide ((i : Int) < mc))).map (fun _ => d) := by
  have hfuel : ((1 : Nat) : Int) + mc.toNat = mc + 1 := by
    have := Int.toNat_of_nonneg (show 0 ≤ mc by omega)
    omega
  obtain ⟨_, t2, _, t4, _, _⟩ :=
    sendLoop_trace env (String.mk (digitsOf t) ++ "@s.whatsapp.net") mc d o mc.toNat 1 0 0 hfuel
  rw [sendMessages_accepted env st t mc d o hdemo hs hc hn hd]
  exact ⟨by simpa [indices, sent] using t2, by simpa [indices, sent] using t4⟩

/-! ### A job whose first send fails -/

/-- C2: a job of 2 messages whose first send throws emits one progress event,
with `current = 2`, and a `message-error` for index 1: the index of the failed
send gets no progress event. -/
theorem sendMessages_failed_send_has_no_progress :
    progressCurrents
        (sendMessages liveEnv connectedIdle "+1 (234) 567-8901" 2 1000 firstSendFails).2.1 = [2] ∧
    errorNumbers
        (sendMessages liveEnv connectedIdle "+1 (234) 567-8901" 2 1000 firstSendFails).2.1 = [1] ∧
    (sendMessages liveEnv connectedIdle "+1 (234) 567-8901" 2 1000 firstSendFails).2.2
      = .ok { success := 1, errors := 1 } :=
  ⟨by decide, by decide, rfl⟩

/-- C8: in a job of 2 messages whose first send throws, the second send follows
the first with no suspension in between, where a job whose sends all resolve
suspends once for `delayMs`. -/
theorem sendMessages_failed_send_skips_delay :
    sleepsOf
        (sendMessages liveEnv connectedIdle "+1 (234) 567-8901" 2 1000 firstSendFails).2.1 = [] ∧
    (sendsOf
        (sendMessages liveEnv connectedIdle "+1 (234) 567-8901" 2 1000
          firstSendFails).2.1).length = 2 ∧
    sleepsOf
        (sendMessages liveEnv connectedIdle "+1 (234) 567-8901" 2 1000
          { sendFails := fun _ => none, demoFails := fun _ => false }).2.1 = [1000] := by
  decide

/-- Witness of C3 on a job of 3 messages whose first send throws. -/
theorem sendMessages_attempts_every_index_witness :
    liveEnv.DEMO_MODE = false ∧ 10 ≤ (digitsOf "+1 (234) 567-8901").length ∧
    sendsOf (sendMessages liveEnv connectedIdle "+1 (234) 567-8901" 3 1000 firstSendFails).2.1
      = (List.range' 1 (3 : Int).toNat).map
          (fun i => (String.mk (digitsOf "+1 (234) 567-8901") ++ "@s.whatsapp.net",
            messageText liveEnv i 3)) ∧
    (∃ r : SendResult,
      (sendMessages liveEnv connectedIdle "+1 (234) 567-8901" 3 1000 firstSendFails).2.2 = .ok r ∧
      r.success = ((List.range' 1 (3 : Int).toNat).filter
        (fun i => (firstSendFails.sendFails i).isNone)).length ∧
      r.errors = ((List.range' 1 (3 : Int).toNat).filter
        (fun i => (firstSendFails.sendFails i).isSome)).length ∧
      (r.success : Int) + r.errors = 3) :=
  ⟨rfl, by decide,
    sendMessages_attempts_every_index liveEnv connectedIdle "+1 (234) 567-8901" 3 1000
      firstSendFails rfl rfl rfl rfl (by decide) (by decide) (by decide)⟩

/-- C6: outside demo mode `sendMessages` throws `WhatsApp is not connected`
when there is no session or `isConnected` is false, otherwise `Already sending
messages` when `isSending` is true, otherwise the invalid-number error when the
recipient has fewer than 10 digits, and returns a result exactly when none of
the three holds; a call that throws performs no effect and leaves every global,
`isSending` included, as it found it. -/
theorem sendMessages_rejects_in_order (env : Env) (st : State) (t : String) (mc d : Int)
    (o : Oracle) (hdemo : env.DEMO_MODE = false) :
    (st.sock = false ∨ st.isConnected = false →
      sendMessages env st t mc d o = (st, [], .error "WhatsApp is not connected")) ∧
    (st.sock = true ∧ st.isConnected = true ∧ st.isSending = true →
      sendMessages env st t mc d o = (st, [], .error "Already sending messages")) ∧
    (st.sock = true ∧ st.isConnected = true ∧ st.isSending = false ∧
        (digitsOf t).length < 10 →
      sendMessages env st t mc d o
        = (st, [], .error "Invalid phone number format. Use format: +1234567890")) ∧
    ((∃ r, (sendMessages env st t mc d o).2.2 = .ok r) ↔
      st.sock = true ∧ st.isConnected = true ∧ st.isSending = false ∧
        10 ≤ (digitsOf t).length) ∧
    (∀ m, (sendMessages env st t mc d o).2.2 = .error m →
      (sendMessages env st t mc d o).1 = st ∧ (sendMessages env st t mc d o).2.1 = []) := by
  obtain ⟨sock, qrData, conn, cs, sending, rec⟩ := st
  by_cases hd : (digitsOf t).length < 10
  · have hd' : ¬ 10 ≤ (digitsOf t).length := by omega
    cases sock <;> cases conn <;> cases sending <;>
      simp [sendMessages, sendMessagesBegin, sendMessagesEnd, hdemo, validatePhoneNumber_eq,
        hd, hd']
  · have hd' : 10 ≤ (digitsOf t).length := by omega
    cases sock <;> cases conn <;> cases sending <;>
      simp [sendMessages, sendMessagesBegin, sendMessagesEnd, hdemo, validatePhoneNumber_eq,
        hd, hd']

/-- Witness of C6: a call that finds a job in flight on a connected session is
rejected with `Already sending messages`, and the flag stays held. -/
theorem sendMessages_rejects_in_order_witness :
    liveEnv.DEMO_MODE = false ∧
    sendMessages liveEnv connectedSending "+1 (234) 567-8901" 3 1000 allSendsResolve
      = (connectedSending, [], .error "Already sending messages") :=
  ⟨rfl, (sendMessages_rejects_in_order liveEnv connectedSending "+1 (234) 567-8901" 3 1000
    allSendsResolve rfl).2.1 ⟨rfl, rfl, rfl⟩⟩

/-! ## The `send-messages` handler: proofs -/

/-- The handler invokes `sendMessages` exactly when the validation of lines
283-299 passes, and otherwise replies with one `send-error` and does nothing
else. -/
theorem onSendMessages_cases (env : Env) (st : State) (data : SendData) (o : Oracle) :
    (∀ m, checkSendRequest data = .error m →
      onSendMessages env st data o = (st, [Effect.reply (Event.sendError m)])) ∧
    (∀ a, checkSendRequest data = .ok a →
      callsSendMessages (onSendMessages env st data o).2 = true) := by
  constructor
  · intro m h
    simp [onSendMessages, h]
  · intro a h
    obtain ⟨t, mc, d⟩ := a
    simp only [onSendMessages, h]
    rcases hr : sendMessages env st t mc d o with ⟨st1, tr, r⟩
    cases r <;> simp [callsSendMessages]

/-- C5: for a non-empty `targetNumber` and integer `messageCount` and `delay`
the handler invokes `sendMessages` if and only if `1 <= messageCount <= 10000`
and `1000 <= delay <= 60000`; when it does not, it replies with exactly one
`send-error`, performs nothing else and leaves the globals unchanged. -/
theorem onSendMessages_range (env : Env) (st : State) (t : String) (mc d : Int) (o : Oracle)
    (ht : t ≠ "") :
    (callsSendMessages
        (onSendMessages env st
          { targetNumber := some t, messageCount := some mc, delay := some d } o).2 = true ↔
      1 ≤ mc ∧ mc ≤ 10000 ∧ 1000 ≤ d ∧ d ≤ 60000) ∧
    (¬ (1 ≤ mc ∧ mc ≤ 10000 ∧ 1000 ≤ d ∧ d ≤ 60000) →
      ∃ m, onSendMessages env st
          { targetNumber := some t, messageCount := some mc, delay := some d } o
        = (st, [Effect.reply (Event.sendError m)])) := by
  by_cases hr : 1 ≤ mc ∧ mc ≤ 10000 ∧ 1000 ≤ d ∧ d ≤ 60000
  · have hc : checkSendRequest
        { targetNumber := some t, messageCount := some mc, delay := some d } = .ok (t, mc, d) := by
      obtain ⟨h1, h2, h3, h4⟩ := hr
      have e1 : ¬ mc = 0 := by omega
      have e2 : ¬ (mc < 1 ∨ mc > 10000) := by omega
      have e3 : ¬ (d < 1000 ∨ d > 60000) := by omega
      simp [checkSendRequest, ht, e1, e2, e3]
    exact ⟨⟨fun _ => hr, fun _ => (onSendMessages_cases env st _ o).2 _ hc⟩,
      fun h => absurd hr h⟩
  · have hc : ∃ m, checkSendRequest
        { targetNumber := some t, messageCount := some mc, delay := some d } = .error m := by
      simp only [checkSendRequest]
      by_cases e1 : t = "" ∨ mc = 0
      · exact ⟨_, if_pos e1⟩
      · rw [if_neg e1]
        by_cases e2 : mc < 1 ∨ mc > 10000
        · exact ⟨_, if_pos e2⟩
        · rw [if_neg e2]
          by_cases e3 : d < 1000 ∨ d > 60000
          · exact ⟨_, if_pos e3⟩
          · exfalso; apply hr; omega
    obtain ⟨m, hm⟩ := hc
    have hrej := (onSendMessages_cases env st _ o).1 m hm
    refine ⟨⟨fun h => ?_, fun h => absurd h hr⟩, fun _ => ⟨m, hrej⟩⟩
    rw [hrej] at h
    simp [callsSendMessages] at h

/-- Witness of C5 at the six boundary values of the specification. -/
theorem onSendMessages_range_witness :
    ("+1 (234) 567-8901" ≠ "") ∧
    callsSendMessages (onSendMessages liveEnv connectedIdle
      { targetNumber := some "+1 (234) 567-8901", messageCount := some 1,
        delay := some 1000 } allSendsResolve).2 = true ∧
    callsSendMessages (onSendMessages liveEnv connectedIdle
      { targetNumber := some "+1 (234) 567-8901", messageCount := some 10000,
        delay := some 60000 } allSendsResolve).2 = true ∧
    callsSendMessages (onSendMessages liveEnv connectedIdle
      { targetNumber := some "+1 (234) 567-8901", messageCount := some 0,
        delay := some 1000 } allSendsResolve).2 = false ∧
    callsSendMessages (onSendMessages liveEnv connectedIdle
      { targetNumber := some "+1 (234) 567-8901", messageCount := some 10001,
        delay := some 1000 } allSendsResolve).2 = false ∧
    callsSendMessages (onSendMessages liveEnv connectedIdle
      { targetNumber := some "+1 (234) 567-8901", messageCount := some 1,
        delay := some 999 } allSendsResolve).2 = false ∧
    callsSendMessages (onSendMessages liveEnv connectedIdle
      { targetNumber := some "+1 (234) 567-8901", messageCount := some 1,
        delay := some 60001 } allSendsResolve).2 = false := by
  have nonEmpty : "+1 (234) 567-8901" ≠ "" := by decide
  refine ⟨nonEmpty, ?_, ?_, ?_, ?_, ?_, ?_⟩
  · exact (onSendMessages_range liveEnv connectedIdle _ 1 1000 allSendsResolve nonEmpty).1.mpr
      (by decide)
  · exact (onSendMessages_range liveEnv connectedIdle _ 10000 60000 allSendsResolve
      nonEmpty).1.mpr (by decide)
  · exact Bool.eq_false_iff.mpr fun h =>
      absurd ((onSendMessages_range liveEnv connectedIdle _ 0 1000 allSendsResolve
        nonEmpty).1.mp h) (by decide)
  · exact Bool.eq_false_iff.mpr fun h =>
      absurd ((onSendMessages_range liveEnv connectedIdle _ 10001 1000 allSendsResolve
        nonEmpty).1.mp h) (by decide)
  · exact Bool.eq_false_iff.mpr fun h =>
      absurd ((onSendMessages_range liveEnv connectedIdle _ 1 999 allSendsResolve
        nonEmpty).1.mp h) (by decide)
  · exact Bool.eq_false_iff.mpr fun h =>
      absurd ((onSendMessages_range liveEnv connectedIdle _ 1 60001 allSendsResolve
        nonEmpty).1.mp h) (by decide)

/-! ## Connection lifecycle: proofs -/

/-- C7: on a `close` update, whatever else the update carries, the handler
leaves `connectionState = 'disconnected'` and `isConnected = false` and
broadcasts that pair; when the status code is `loggedOut` it clears the stored
challenge, broadcasts `logged-out` and schedules no retry; for any other code,
a missing one included, it schedules exactly one `connectToWhatsApp` retry,
after 5000 ms, and emits no `logged-out`. -/
theorem onConnectionUpdate_close (env : Env) (st : State) (code : Option Int)
    (qr rendered : Option String) :
    (onConnectionUpdate env st
      { connection := some "close", statusCode := code, qr := qr } rendered).1.connectionState
      = "disconnected" ∧
    (onConnectionUpdate env st
      { connection := some "close", statusCode := code, qr := qr } rendered).1.isConnected
      = false ∧
    Effect.broadcast (Event.connectionState "disconnected" false none) ∈
      (onConnectionUpdate env st
        { connection := some "close", statusCode := code, qr := qr } rendered).2 ∧
    (code = some env.loggedOut →
      (onConnectionUpdate env st
        { connection := some "close", statusCode := code, qr := qr } rendered).1.qrCodeData
        = none ∧
      Effect.broadcast (Event.loggedOut "You have been logged out") ∈
        (onConnectionUpdate env st
          { connection := some "close", statusCode := code, qr := qr } rendered).2 ∧
      retriesOf (onConnectionUpdate env st
        { connection := some "close", statusCode := code, qr := qr } rendered).2 = []) ∧
    (code ≠ some env.loggedOut →
      retriesOf (onConnectionUpdate env st
        { connection := some "close", statusCode := code, qr := qr } rendered).2 = [5000] ∧
      ∀ m, Effect.broadcast (Event.loggedOut m) ∉
          (onConnectionUpdate env st
            { connection := some "close", statusCode := code, qr := qr } rendered).2 ∧
        Effect.reply (Event.loggedOut m) ∉
          (onConnectionUpdate env st
            { connection := some "close", statusCode := code, qr := qr } rendered).2) := by
  have hne : ¬ ((some "close" : Option String) = some "open") := by decide
  by_cases hc : code = some env.loggedOut
  · cases hq : truthy qr <;> cases rendered <;>
      simp [onConnectionUpdate, onQr, onClose, onOpen, hne, hq, hc, retriesOf]
  · cases hq : truthy qr <;> cases rendered <;>
      simp [onConnectionUpdate, onQr, onClose, onOpen, hne, hq, hc, retriesOf]

/-! ## Reachable states: proofs -/

/-- Induction over the inputs of a run: a property of the start state that
every step on an admitted input preserves holds of the state reached. -/
theorem foldl_step_induction (env : Env) (P : System → Prop) (Q : Input → Prop)
    (hstep : ∀ s x, Q x → P s → P (step env s x)) :
    ∀ (inputs : List Input) (s : System), (∀ x ∈ inputs, Q x) → P s →
      P (inputs.foldl (step env) s) := by
  intro inputs
  induction inputs with
  | nil => intro s _ h; exact h
  | cons x xs ih =>
    intro s hq h
    simp only [List.foldl_cons]
    exact ih (step env s x) (fun y hy => hq y (List.mem_cons_of_mem _ hy))
      (hstep s x (hq x (List.mem_cons_self _ _)) h)

/-- A property of the start state preserved by every step holds of every
reachable state. -/
theorem run_induction (env : Env) (P : System → Prop) (h0 : P System.initial)
    (hstep : ∀ s x, P s → P (step env s x)) (inputs : List Input) : P (run env inputs) :=
  foldl_step_induction env P (fun _ => True) (fun s x _ h => hstep s x h) inputs
    System.initial (fun _ _ => trivial) h0

/-- The update handler never touches `isSending`. -/
theorem onConnectionUpdate_isSending (env : Env) (st : State) (u : Update)
    (rendered : Option String) :
    (onConnectionUpdate env st u rendered).1.isSending = st.isSending := by
  simp only [onConnectionUpdate, onQr, onClose, onOpen]
  split_ifs <;> cases rendered <;> simp

/-- No handler other than `send-messages` touches `isSending`. -/
theorem other_handlers_isSending (env : Env) (st : State) :
    (∀ opens, (connectToWhatsApp env st opens).1.isSending = st.isSending) ∧
    (∀ r, (onDemoQrTimer st r).1.isSending = st.isSending) ∧
    (onDemoConnect env st).1.isSending = st.isSending ∧
    (∀ ok, (onLogout st ok).1.isSending = st.isSending) := by
  refine ⟨fun opens => ?_, fun r => ?_, ?_, fun ok => ?_⟩
  · simp only [connectToWhatsApp]; split_ifs <;> simp
  · cases r <;> simp [onDemoQrTimer]
  · simp only [onDemoConnect]; split_ifs <;> simp
  · simp only [onLogout]; split_ifs <;> simp

/-- Outside demo mode every step keeps at most one loop in flight, and the
flag `isSending` set exactly while one is. -/
theorem step_single_flight (env : Env) (hdemo : env.DEMO_MODE = false) (s : System) (x : Input)
    (h : s.running ≤ 1 ∧ (s.st.isSending = true ↔ s.running = 1)) :
    (step env s x).running ≤ 1 ∧
      ((step env s x).st.isSending = true ↔ (step env s x).running = 1) := by
  obtain ⟨h1, h2⟩ := h
  obtain ⟨c1, c2, c3, c4⟩ := other_handlers_isSending env s.st
  cases x with
  | connect opens => simpa [step, c1 opens] using ⟨h1, h2⟩
  | update u r => simpa [step, onConnectionUpdate_isSending] using ⟨h1, h2⟩
  | demoQrTimer r => simpa [step, c2 r] using ⟨h1, h2⟩
  | attach => exact ⟨h1, h2⟩
  | demoConnect => simpa [step, c3] using ⟨h1, h2⟩
  | logout ok => simpa [step, c4 ok] using ⟨h1, h2⟩
  | sendMessages data =>
    simp only [step]
    cases hc : checkSendRequest data with
    | error m => exact ⟨h1, h2⟩
    | ok a =>
      obtain ⟨t, mc, d⟩ := a
      simp only [sendMessagesBegin, hdemo, Bool.false_eq_true, if_false]
      by_cases hconn : (!s.st.sock || !s.st.isConnected) = true
      · simp only [hconn, if_true]; exact ⟨h1, h2⟩
      · simp only [hconn, if_false]
        by_cases hsend : s.st.isSending = true
        · simp only [hsend, if_true]; exact ⟨h1, h2⟩
        · simp only [hsend, if_false]
          cases hv : validatePhoneNumber t with
          | none => exact ⟨h1, h2⟩
          | some jid =>
            have hr : s.running = 0 := by
              have : ¬ s.running = 1 := fun h => hsend (h2.mpr h)
              omega
            simp [hr]
  | loopReturns =>
    simp only [step]
    by_cases hr : s.running = 0
    · rw [if_pos hr]; exact ⟨h1, h2⟩
    · have hr1 : s.running = 1 := by omega
      simp [hr1, sendMessagesEnd]

/-- Outside demo mode a call of `sendMessages` that finds `isSending` set
throws before touching anything: `WhatsApp is not connected` when the session
is missing or not connected, `Already sending messages` otherwise. -/
theorem sendMessages_while_sending (env : Env) (hdemo : env.DEMO_MODE = false) (st : State)
    (t : String) (mc d : Int) (o : Oracle) (h : st.isSending = true) :
    sendMessages env st t mc d o
      = (st, [], .error (if (!st.sock || !st.isConnected) = true then "WhatsApp is not connected"
                         else "Already sending messages")) := by
  simp only [sendMessages, sendMessagesBegin, hdemo, h, Bool.false_eq_true, if_false, if_true]
  split_ifs <;> rfl

/-- Outside demo mode the handler of `send-messages`, run while `isSending` is
set, starts no loop: the state is untouched, nothing is sent, and the one event
emitted is a `send-error` to the invoking observer. -/
theorem onSendMessages_while_sending (env : Env) (hdemo : env.DEMO_MODE = false) (st : State)
    (data : SendData) (o : Oracle) (h : st.isSending = true) :
    (onSendMessages env st data o).1 = st ∧
    sendsOf (onSendMessages env st data o).2 = [] ∧
    progressCurrents (onSendMessages env st data o).2 = [] ∧
    ∃ m, eventsOf (onSendMessages env st data o).2 = [Effect.reply (Event.sendError m)] ∧
      ((∃ a, checkSendRequest data = .ok a) → st.sock = true → st.isConnected = true →
        m = "Already sending messages") := by
  cases hc : checkSendRequest data with
  | error m =>
    refine ⟨by simp [onSendMessages, hc], by simp [onSendMessages, hc, sendsOf],
      by simp [onSendMessages, hc, progressCurrents], m, by simp [onSendMessages, hc, eventsOf],
      fun ⟨a, ha⟩ => by simp at ha⟩
  | ok a =>
    obtain ⟨t, mc, d⟩ := a
    have hs := sendMessages_while_sending env hdemo st t mc d o h
    refine ⟨by simp [onSendMessages, hc, hs], by simp [onSendMessages, hc, hs, sendsOf],
      by simp [onSendMessages, hc, hs, progressCurrents],
      (if (!st.sock || !st.isConnected) = true then "WhatsApp is not connected"
       else "Already sending messages"),
      by simp [onSendMessages, hc, hs, eventsOf], fun _ h1 h2 => by simp [h1, h2]⟩

/-- Outside demo mode a `send-messages` input that finds `isSending` set
leaves the whole system, the number of loops in flight included, as it was. -/
theorem step_sendMessages_while_sending (env : Env) (hdemo : env.DEMO_MODE = false)
    (s : System) (data : SendData) (h : s.st.isSending = true) :
    step env s (Input.sendMessages data) = s := by
  simp only [step]
  cases hc : checkSendRequest data with
  | error m => rfl
  | ok a =>
    obtain ⟨t, mc, d⟩ := a
    simp only [sendMessagesBegin, hdemo, h, Bool.false_eq_true, if_false, if_true]
    split_ifs <;> rfl

/-- C1 (as amended): outside demo mode, in every reachable state at most one
send loop is in flight and `isSending` is set exactly while one is; a
`send-messages` command handled while `isSending` is set is rejected with one
`send-error` to its observer, sends nothing, emits no progress, leaves the
globals unchanged and starts no second loop; the error is `Already sending
messages` whenever the command passes the handler's validation and the session
is connected. -/
theorem single_flight_outside_demo (env : Env) (hdemo : env.DEMO_MODE = false)
    (inputs : List Input) (data : SendData) (o : Oracle) :
    (run env inputs).running ≤ 1 ∧
    ((run env inputs).st.isSending = true ↔ (run env inputs).running = 1) ∧
    ((run env inputs).st.isSending = true →
      step env (run env inputs) (Input.sendMessages data) = run env inputs ∧
      (onSendMessages env (run env inputs).st data o).1 = (run env inputs).st ∧
      sendsOf (onSendMessages env (run env inputs).st data o).2 = [] ∧
      progressCurrents (onSendMessages env (run env inputs).st data o).2 = [] ∧
      ∃ m, eventsOf (onSendMessages env (run env inputs).st data o).2
          = [Effect.reply (Event.sendError m)] ∧
        ((∃ a, checkSendRequest data = .ok a) → (run env inputs).st.sock = true →
          (run env inputs).st.isConnected = true → m = "Already sending messages")) := by
  have hinv := run_induction env
    (fun s => s.running ≤ 1 ∧ (s.st.isSending = true ↔ s.running = 1))
    (by simp [System.initial, State.initial])
    (fun s x h => step_single_flight env hdemo s x h) inputs
  exact ⟨hinv.1, hinv.2, fun h =>
    ⟨step_sendMessages_while_sending env hdemo _ data h,
      onSendMessages_while_sending env hdemo _ data o h⟩⟩

/-- Witness of C1 (as amended): a second command on a connected session with a
job in flight. -/
theorem single_flight_outside_demo_witness :
    liveEnv.DEMO_MODE = false ∧
    (run liveEnv [Input.connect true, Input.update opened none,
      Input.sendMessages twoMessages]).running ≤ 1 ∧
    ((run liveEnv [Input.connect true, Input.update opened none,
      Input.sendMessages twoMessages]).st.isSending = true ↔
     (run liveEnv [Input.connect true, Input.update opened none,
      Input.sendMessages twoMessages]).running = 1) :=
  ⟨rfl,
    (single_flight_outside_demo liveEnv rfl
      [Input.connect true, Input.update opened none, Input.sendMessages twoMessages]
      twoMessages allSendsResolve).1,
    (single_flight_outside_demo liveEnv rfl
      [Input.connect true, Input.update opened none, Input.sendMessages twoMessages]
      twoMessages allSendsResolve).2.1⟩

/-- C1 fails as stated.  In demo mode a second `send-messages` command handled
while the first job is in flight (`isSending` set) is accepted: two loops are
in flight, and the second handler emits its own progress events.  Outside demo
mode, a command handled while a job is in flight on a session that has since
closed is rejected with `WhatsApp is not connected`, not `Already sending
messages`. -/
theorem second_command_not_always_AlreadySending :
    (run demoEnv [Input.sendMessages twoMessages]).st.isSending = true ∧
    (run demoEnv [Input.sendMessages twoMessages, Input.sendMessages twoMessages]).running = 2 ∧
    progressCurrents (onSendMessages demoEnv (run demoEnv [Input.sendMessages twoMessages]).st
      twoMessages allSendsResolve).2 = [1, 2] ∧
    (run liveEnv [Input.connect true, Input.update opened none, Input.sendMessages twoMessages,
      Input.update closedTimedOut none]).st.isSending = true ∧
    (run liveEnv [Input.connect true, Input.update opened none, Input.sendMessages twoMessages,
      Input.update closedTimedOut none]).running = 1 ∧
    eventsOf (onSendMessages liveEnv
      (run liveEnv [Input.connect true, Input.update opened none, Input.sendMessages twoMessages,
        Input.update closedTimedOut none]).st twoMessages allSendsResolve).2
      = [Effect.reply (Event.sendError "WhatsApp is not connected")] := by
  decide

/-- An accepted start of `sendMessages` changes `isSending` and nothing else. -/
theorem sendMessagesBegin_ok (env : Env) (st st1 : State) (t : String) (j : Option String)
    (h : sendMessagesBegin env st t = .ok (st1, j)) : st1 = { st with isSending := true } := by
  simp only [sendMessagesBegin] at h
  split_ifs at h
  · simp only [Except.ok.injEq, Prod.mk.injEq] at h; exact h.1.symm
  · cases hv : validatePhoneNumber t with
    | none => simp [hv] at h
    | some jid =>
      simp only [hv, Except.ok.injEq, Prod.mk.injEq] at h
      exact h.1.symm

/-- A `send-messages` input and the return of a loop change at most
`isSending` among the globals. -/
theorem step_send_fields (env : Env) (s : System) :
    (∀ data, (step env s (Input.sendMessages data)).st.qrCodeData = s.st.qrCodeData ∧
      (step env s (Input.sendMessages data)).st.isConnected = s.st.isConnected ∧
      (step env s (Input.sendMessages data)).st.connectionState = s.st.connectionState) ∧
    ((step env s Input.loopReturns).st.qrCodeData = s.st.qrCodeData ∧
      (step env s Input.loopReturns).st.isConnected = s.st.isConnected ∧
      (step env s Input.loopReturns).st.connectionState = s.st.connectionState) := by
  constructor
  · intro data
    simp only [step]
    cases hc : checkSendRequest data with
    | error m => exact ⟨rfl, rfl, rfl⟩
    | ok a =>
      obtain ⟨t, mc, d⟩ := a
      cases hb : sendMessagesBegin env s.st t with
      | error m => simp [hb]
      | ok r =>
        obtain ⟨st1, j⟩ := r
        have hst := sendMessagesBegin_ok env s.st st1 t j hb
        simp [hb, hst]
  · simp only [step]
    split_ifs <;> exact ⟨rfl, rfl, rfl⟩

/-- Every step keeps: a stored challenge implies `connectionState` is `'qr'`,
`'disconnected'` or `'error'`. -/
theorem step_challenge_states (env : Env) (s : System) (x : Input)
    (h : s.st.qrCodeData = none ∨ s.st.connectionState = "qr" ∨
      s.st.connectionState = "disconnected" ∨ s.st.connectionState = "error") :
    (step env s x).st.qrCodeData = none ∨ (step env s x).st.connectionState = "qr" ∨
      (step env s x).st.connectionState = "disconnected" ∨
      (step env s x).st.connectionState = "error" := by
  cases x with
  | connect opens =>
    simp only [step, connectToWhatsApp]
    split_ifs <;> simp [h]
  | update u r =>
    simp only [step, onConnectionUpdate, onQr, onClose, onOpen]
    split_ifs <;> cases r <;> simp [h]
  | demoQrTimer r => cases r <;> simp [step, onDemoQrTimer, h]
  | attach => exact h
  | demoConnect =>
    simp only [step, onDemoConnect]
    split_ifs <;> simp [h]
  | logout ok =>
    simp only [step, onLogout]
    split_ifs <;> simp [h]
  | sendMessages data =>
    obtain ⟨h1, _, h3⟩ := (step_send_fields env s).1 data
    rw [h1, h3]; exact h
  | loopReturns =>
    obtain ⟨h1, _, h3⟩ := (step_send_fields env s).2
    rw [h1, h3]; exact h

/-- Every step keeps: `'connected'` implies `isConnected`, and `isConnected`
implies `'connected'` or `'error'`. -/
theorem step_status_fields (env : Env) (s : System) (x : Input)
    (h : (s.st.connectionState = "connected" → s.st.isConnected = true) ∧
      (s.st.isConnected = true →
        s.st.connectionState = "connected" ∨ s.st.connectionState = "error")) :
    ((step env s x).st.connectionState = "connected" → (step env s x).st.isConnected = true) ∧
      ((step env s x).st.isConnected = true →
        (step env s x).st.connectionState = "connected" ∨
          (step env s x).st.connectionState = "error") := by
  cases x with
  | connect opens =>
    simp only [step, connectToWhatsApp]
    split_ifs <;> first | exact h | simp
  | update u r =>
    simp only [step, onConnectionUpdate, onQr, onClose, onOpen]
    split_ifs <;> cases r <;> first | exact h | simp
  | demoQrTimer r => cases r <;> simp only [step, onDemoQrTimer] <;> first | exact h | simp
  | attach => exact h
  | demoConnect =>
    simp only [step, onDemoConnect]
    split_ifs <;> first | exact h | simp
  | logout ok =>
    simp only [step, onLogout]
    split_ifs <;> first | exact h | simp
  | sendMessages data =>
    obtain ⟨_, h2, h3⟩ := (step_send_fields env s).1 data
    rw [h2, h3]; exact h
  | loopReturns =>
    obtain ⟨_, h2, h3⟩ := (step_send_fields env s).2
    rw [h2, h3]; exact h

/-- Every step keeps the two status fields in agreement, unless it is a
connect attempt that throws while `isConnected` is true. -/
theorem step_status_agree (env : Env) (s : System) (x : Input)
    (hx : x = Input.connect false → s.st.isConnected = false)
    (h : s.st.isConnected = true ↔ s.st.connectionState = "connected") :
    (step env s x).st.isConnected = true ↔ (step env s x).st.connectionState = "connected" := by
  cases x with
  | connect opens =>
    cases opens with
    | false =>
      have hc := hx rfl
      simp only [step, connectToWhatsApp]
      split_ifs <;> first | exact h | simp [hc]
    | true =>
      simp only [step, connectToWhatsApp]
      split_ifs <;> exact h
  | update u r =>
    simp only [step, onConnectionUpdate, onQr, onClose, onOpen]
    split_ifs <;> cases r <;> first | exact h | simp
  | demoQrTimer r => cases r <;> simp only [step, onDemoQrTimer] <;> first | exact h | simp
  | attach => exact h
  | demoConnect =>
    simp only [step, onDemoConnect]
    split_ifs <;> first | exact h | simp
  | logout ok =>
    simp only [step, onLogout]
    split_ifs <;> first | exact h | simp
  | sendMessages data =>
    obtain ⟨_, h2, h3⟩ := (step_send_fields env s).1 data
    rw [h2, h3]; exact h
  | loopReturns =>
    obtain ⟨_, h2, h3⟩ := (step_send_fields env s).2
    rw [h2, h3]; exact h

/-- Induction over the inputs of a run where the admission of an input may
depend on the state it finds. -/
theorem foldl_step_induction_at (env : Env) (P : System → Prop) (Q : System → Input → Prop)
    (hstep : ∀ s x, Q s x → P s → P (step env s x)) :
    ∀ (inputs : List Input) (s : System),
      (∀ before x after, inputs = before ++ x :: after → Q (before.foldl (step env) s) x) →
      P s → P (inputs.foldl (step env) s) := by
  intro inputs
  induction inputs with
  | nil => intro s _ h; exact h
  | cons x xs ih =>
    intro s hq h
    simp only [List.foldl_cons]
    refine ih (step env s x) (fun before y after hxs => ?_) (hstep s x (hq [] x xs rfl) h)
    have := hq (x :: before) y after (by rw [hxs]; rfl)
    simpa using this

/-- C9 (as amended): in every reachable state a stored challenge implies that
`connectionState` is `'qr'`, `'disconnected'` or `'error'`, never
`'connected'`; so an observer attaching while `connectionState` is
`'connected'` is sent no `qr` event. -/
theorem challenge_never_while_connected (env : Env) (inputs : List Input) :
    ((run env inputs).st.qrCodeData = none ∨ (run env inputs).st.connectionState = "qr" ∨
      (run env inputs).st.connectionState = "disconnected" ∨
      (run env inputs).st.connectionState = "error") ∧
    ((run env inputs).st.connectionState = "connected" →
      (run env inputs).st.qrCodeData = none ∧
      onConnection env (run env inputs).st
        = [Effect.reply (Event.connectionState "connected" (run env inputs).st.isConnected
            (some env.DEMO_MODE))]) := by
  have hinv := run_induction env
    (fun s => s.st.qrCodeData = none ∨ s.st.connectionState = "qr" ∨
      s.st.connectionState = "disconnected" ∨ s.st.connectionState = "error")
    (by simp [System.initial, State.initial])
    (fun s x h => step_challenge_states env s x h) inputs
  refine ⟨hinv, fun hc => ?_⟩
  have hq : (run env inputs).st.qrCodeData = none := by
    rcases hinv with h | h | h | h
    · exact h
    · rw [hc] at h; exact absurd h (by decide)
    · rw [hc] at h; exact absurd h (by decide)
    · rw [hc] at h; exact absurd h (by decide)
  exact ⟨hq, by simp [onConnection, hq, hc]⟩

/-- C9 fails as stated.  After a connect attempt that opens a session, a
challenge that is rendered and a close with status code 408, the challenge is
still stored while `connectionState` is `'disconnected'`, and an observer
attaching then is sent it in a `qr` event. -/
theorem challenge_survives_close :
    (run liveEnv [Input.connect true,
      Input.update challenge (some "data:image/png;base64,iVBOR"),
      Input.update closedTimedOut none]).st.qrCodeData = some "data:image/png;base64,iVBOR" ∧
    (run liveEnv [Input.connect true,
      Input.update challenge (some "data:image/png;base64,iVBOR"),
      Input.update closedTimedOut none]).st.connectionState = "disconnected" ∧
    onConnection liveEnv (run liveEnv [Input.connect true,
      Input.update challenge (some "data:image/png;base64,iVBOR"),
      Input.update closedTimedOut none]).st
      = [Effect.reply (Event.connectionState "disconnected" false (some false)),
         Effect.reply (Event.qr "data:image/png;base64,iVBOR")] := by
  decide

/-- C10 (as amended): in every reachable state `connectionState = 'connected'`
implies `isConnected`, and `isConnected` implies that `connectionState` is
`'connected'` or `'error'`; and unless some connect attempt threw while
`isConnected` was true, `isConnected` holds exactly when `connectionState` is
`'connected'`. -/
theorem status_fields_agree_up_to_error (env : Env) (inputs : List Input) :
    ((run env inputs).st.connectionState = "connected" →
      (run env inputs).st.isConnected = true) ∧
    ((run env inputs).st.isConnected = true →
      (run env inputs).st.connectionState = "connected" ∨
        (run env inputs).st.connectionState = "error") ∧
    ((∀ before after, inputs = before ++ Input.connect false :: after →
        (run env before).st.isConnected = false) →
      ((run env inputs).st.isConnected = true ↔
        (run env inputs).st.connectionState = "connected")) := by
  have hinv := run_induction env
    (fun s => (s.st.connectionState = "connected" → s.st.isConnected = true) ∧
      (s.st.isConnected = true →
        s.st.connectionState = "connected" ∨ s.st.connectionState = "error"))
    (by simp [System.initial, State.initial])
    (fun s x h => step_status_fields env s x h) inputs
  refine ⟨hinv.1, hinv.2, fun hq => ?_⟩
  exact foldl_step_induction_at env
    (fun s => s.st.isConnected = true ↔ s.st.connectionState = "connected")
    (fun s x => x = Input.connect false → s.st.isConnected = false)
    (fun s x hx h => step_status_agree env s x hx h) inputs System.initial
    (fun before x after hi hx => hq before after (by rw [hi, hx]))
    (by simp [System.initial, State.initial])

/-- C10 fails as stated.  A connect attempt opens a session, the session
closes with status code 408 (which schedules a retry) and then reports open,
and the retried connect attempt throws: `isConnected` is true while
`connectionState` is `'error'`, and the status query reports that pair. -/
theorem connected_flag_survives_failed_connect :
    (run liveEnv [Input.connect true, Input.update closedTimedOut none,
      Input.update opened none, Input.connect false]).st.isConnected = true ∧
    (run liveEnv [Input.connect true, Input.update closedTimedOut none,
      Input.update opened none, Input.connect false]).st.connectionState = "error" ∧
    health (run liveEnv [Input.connect true, Input.update closedTimedOut none,
      Input.update opened none, Input.connect false]).st = (true, "error") := by
  decide

end MertUncle
